import Mathlib

/-!
Verification of the booking-state and scheduling core of the
personal-trainer-booking server.

The model is a shallow embedding of the route handlers in the server file
(`app.post('/api/booking')`, `app.delete('/api/booking/:id')`,
`app.post('/api/session')`, `app.delete('/api/session/:id')`, the
`BookingSchema.pre('save')` middleware) and of
`reminderScheduler.js` (`sendSessionReminders`).

Instants are milliseconds since the epoch, as `Int` (JS `Date.getTime()`).
The store is a list-backed state; notification outcomes are supplied by an
oracle argument, since the handlers catch every email error.
-/

namespace PTB

/-- Milliseconds in one minute. -/
def msPerMin : Int := 60000

/-- Milliseconds in one hour. -/
def msPerHour : Int := 3600000

/-- Milliseconds in one day. -/
def msPerDay : Int := 86400000

/-- An "HH:MM" time-of-day string, already split at the colon and parsed
(`session.time.split(':')` + `parseInt`). -/
structure HM where
  hh : Nat
  mm : Nat
deriving DecidableEq, Repr

/-- `role` field of the User schema: enum `['admin', 'client']`. -/
inductive Role
  | admin
  | client
deriving DecidableEq, Repr

/-- User schema fields the core reads and writes.  `activeSessions` is a JS
Number updated with `$inc`, so it is an unbounded integer. -/
structure User where
  uid : Nat
  role : Role
  activeSessions : Int
  packageExpiry : Option Int
deriving DecidableEq, Repr

/-- Session schema fields the core reads.  `date` is the stored `Date` value
in ms; `time` the "HH:MM" string; `packageDuration` is in days. -/
structure Session where
  sid : Nat
  date : Int
  time : HM
  maxCapacity : Nat
  isActive : Bool
  packageDuration : Nat
deriving DecidableEq, Repr

/-- `status` field of the Booking schema: enum `['confirmed', 'cancelled']`. -/
inductive BStatus
  | confirmed
  | cancelled
deriving DecidableEq, Repr

/-- Booking schema fields. -/
structure Booking where
  bid : Nat
  session : Nat
  client : Nat
  groupSize : Nat
  status : BStatus
  notes : String
  reminderSent : Bool
  canCancel : Bool
  cancellationDeadline : Int
  isPackageBooking : Bool
deriving DecidableEq, Repr

/-- The persistent store: the three collections plus an id counter. -/
structure St where
  sessions : List Session
  bookings : List Booking
  users : List User
  nextId : Nat
deriving DecidableEq, Repr

/-- Midnight of the (epoch-aligned) day containing `t`. -/
def startOfDay (t : Int) : Int := t - t.emod msPerDay

/-- `moment(t).endOf('day')`: last millisecond of the day containing `t`. -/
def endOfDay (t : Int) : Int := startOfDay t + (msPerDay - 1)

/-- JS `d.setHours(hh, mm, 0, 0)` applied to the instant `t`: keeps the day,
sets hours and minutes, zeroes seconds and milliseconds.  Used by the
`BookingSchema.pre('save')` middleware to combine `session.date` and
`session.time`. -/
def setHours4 (t : Int) (hm : HM) : Int :=
  startOfDay t + ((hm.hh * 60 + hm.mm : Nat) : Int) * msPerMin

/-- The session's start instant: its stored date combined with its "HH:MM"
time. -/
def sessionStart (s : Session) : Int := setHours4 s.date s.time

/-- The cancellation deadline computed in `BookingSchema.pre('save')`:
`sessionDate.getTime() - 24*60*60*1000`. -/
def computeDeadline (s : Session) : Int := sessionStart s - 24 * msPerHour

/-- `Session.findById`. -/
def findSession (st : St) (sid : Nat) : Option Session :=
  st.sessions.find? (fun s => decide (s.sid = sid))

/-- `Booking.findById`. -/
def findBooking (st : St) (bid : Nat) : Option Booking :=
  st.bookings.find? (fun b => decide (b.bid = bid))

/-- `User.findById`. -/
def findUser (st : St) (uid : Nat) : Option User :=
  st.users.find? (fun u => decide (u.uid = uid))

/-- `Booking.find({ session: sessionId, status: 'confirmed' })`. -/
def confirmedBookings (st : St) (sid : Nat) : List Booking :=
  st.bookings.filter (fun b => decide (b.session = sid ∧ b.status = BStatus.confirmed))

/-- `existingBookings.reduce((sum, b) => sum + b.groupSize, 0)`: seats
occupied on a session. -/
def occupied (st : St) (sid : Nat) : Nat :=
  ((confirmedBookings st sid).map (fun b => b.groupSize)).sum

/-- Errors of `app.post('/api/booking')`. -/
inductive BkErr
  | adminsCannotBook
  | sessionNotAvailable
  | notEnoughSpots
  | validationFailed
deriving DecidableEq, Repr

/-- `$inc: { activeSessions: 1 }, $set: { packageExpiry: now + duration days }`
applied to the user with id `uid`. -/
def applyPackageBooking (users : List User) (uid : Nat) (expiry : Int) : List User :=
  users.map (fun u =>
    if u.uid = uid then
      { u with activeSessions := u.activeSessions + 1, packageExpiry := some expiry }
    else u)

/-- `app.post('/api/booking')`: admin check, session lookup and active check,
capacity check against the sum of confirmed group sizes, schema validation of
`groupSize` (min 1, max 4), insert with the `pre('save')` deadline, package
counter update, then a confirmation-email attempt whose outcome `emailOk` is
caught and only logged.  Returns the new store, the booking and the logged
email outcome. -/
def createBooking (st : St) (actor : User) (now : Int) (sessionId : Nat)
    (groupSize : Nat) (isPackageBooking : Bool) (emailOk : Bool) :
    Except BkErr (St × Booking × Bool) :=
  if actor.role = Role.admin then
    .error .adminsCannotBook
  else
    match findSession st sessionId with
    | none => .error .sessionNotAvailable
    | some s =>
      if s.isActive then
        if s.maxCapacity < occupied st sessionId + groupSize then
          .error .notEnoughSpots
        else if groupSize < 1 ∨ 4 < groupSize then
          .error .validationFailed
        else
          let b : Booking :=
            { bid := st.nextId
              session := sessionId
              client := actor.uid
              groupSize := groupSize
              status := BStatus.confirmed
              notes := ""
              reminderSent := false
              canCancel := decide (now < computeDeadline s)
              cancellationDeadline := computeDeadline s
              isPackageBooking := isPackageBooking }
          let st1 : St :=
            { st with bookings := st.bookings ++ [b], nextId := st.nextId + 1 }
          let expiry : Int := now + (s.packageDuration : Int) * msPerDay
          let st2 : St :=
            if isPackageBooking then
              { st1 with users := applyPackageBooking st1.users actor.uid expiry }
            else st1
          .ok (st2, b, emailOk)
      else
        .error .sessionNotAvailable

/-- The store after a create-booking request: unchanged when the handler
answered with an error. -/
def createBookingState (st : St) (actor : User) (now : Int) (sessionId : Nat)
    (groupSize : Nat) (isPackageBooking : Bool) (emailOk : Bool) : St :=
  match createBooking st actor now sessionId groupSize isPackageBooking emailOk with
  | .ok r => r.1
  | .error _ => st

/-- `true` iff the handler answered `success: true`. -/
def succeededBk (x : Except BkErr (St × Booking × Bool)) : Bool :=
  match x with
  | .ok _ => true
  | .error _ => false

/-- Errors of `app.delete('/api/booking/:id')`. -/
inductive CancelErr
  | bookingNotFound
  | notAuthorized
  | windowClosed
deriving DecidableEq, Repr

/-- `$inc: { activeSessions: -1 }` applied to the user with id `uid`. -/
def applyPackageCancellation (users : List User) (uid : Nat) : List User :=
  users.map (fun u =>
    if u.uid = uid then { u with activeSessions := u.activeSessions - 1 } else u)

/-- `app.delete('/api/booking/:id')`: lookup, ownership check for non-admins,
24-hour-policy check for non-admins (`now > cancellationDeadline` rejects),
package counter decrement, cancellation-email attempt (outcome `emailOk`
caught and logged), then `findByIdAndDelete`.  Returns the new store and the
logged email outcome. -/
def cancelBooking (st : St) (actor : User) (now : Int) (bookingId : Nat)
    (emailOk : Bool) : Except CancelErr (St × Bool) :=
  match findBooking st bookingId with
  | none => .error .bookingNotFound
  | some b =>
    if actor.role ≠ Role.admin ∧ b.client ≠ actor.uid then
      .error .notAuthorized
    else if actor.role ≠ Role.admin ∧ b.cancellationDeadline < now then
      .error .windowClosed
    else
      let st1 : St :=
        if b.isPackageBooking then
          { st with users := applyPackageCancellation st.users b.client }
        else st
      let st2 : St :=
        { st1 with bookings := st1.bookings.filter (fun x => decide (¬ x.bid = bookingId)) }
      .ok (st2, emailOk)

/-- `true` iff the cancellation handler answered `success: true`. -/
def succeededCancel (x : Except CancelErr (St × Bool)) : Bool :=
  match x with
  | .ok _ => true
  | .error _ => false

/-- Errors of `app.post('/api/session')`. -/
inductive SessErr
  | notAdmin
  | duplicateSession
  | validationFailed
deriving DecidableEq, Repr

/-- `app.post('/api/session')` (admin only): rejects when
`Session.findOne({ date, time })` finds any session — active or not — at the
same date and time; then `session.save()` runs the Session schema validation
(`maxCapacity: min 1, max 4`), whose failure the handler catches and answers
400; otherwise the active session is inserted. -/
def createSession (st : St) (actor : User) (date : Int) (time : HM)
    (maxCapacity : Nat) (packageDuration : Nat) : Except SessErr (St × Session) :=
  if actor.role ≠ Role.admin then
    .error .notAdmin
  else if (st.sessions.find? (fun s => decide (s.date = date ∧ s.time = time))).isSome then
    .error .duplicateSession
  else if maxCapacity < 1 ∨ 4 < maxCapacity then
    .error .validationFailed
  else
    let s : Session :=
      { sid := st.nextId
        date := date
        time := time
        maxCapacity := maxCapacity
        isActive := true
        packageDuration := packageDuration }
    .ok ({ st with sessions := st.sessions ++ [s], nextId := st.nextId + 1 }, s)

/-- `true` iff the session-creation handler answered `success: true`. -/
def succeededSess (x : Except SessErr (St × Session)) : Bool :=
  match x with
  | .ok _ => true
  | .error _ => false

/-- `app.delete('/api/session/:id')`: finds the confirmed bookings of the
session, attempts one cancellation notification per confirmed booking (each
wrapped in its own try/catch, the outcome `emailOk b.bid` only logged), then
`Booking.deleteMany({ session: id })` and `Session.findByIdAndDelete(id)`.
Returns the list of notification attempts and the new store. -/
def deleteSession (st : St) (sid : Nat) (emailOk : Nat → Bool) :
    List (Nat × Bool) × St :=
  let confirmed := confirmedBookings st sid
  let attempts := confirmed.map (fun b => (b.bid, emailOk b.bid))
  let st1 : St :=
    { st with
      bookings := st.bookings.filter (fun b => decide (¬ b.session = sid))
      sessions := st.sessions.filter (fun s => decide (¬ s.sid = sid)) }
  (attempts, st1)

/-- `app.put('/api/booking/:id/notes')`: `findByIdAndUpdate` of the notes
field only; no schema middleware runs. -/
def updateBookingNotes (st : St) (bid : Nat) (notes : String) : St :=
  { st with bookings :=
      st.bookings.map (fun b => if b.bid = bid then { b with notes := notes } else b) }

/-- `moment().add(2,'hours').subtract(7,'minutes')`: lower window bound
as logged, before the in-place `startOf('day')` mutation. -/
def startWindow (now : Int) : Int := now + 113 * msPerMin

/-- `moment().add(2,'hours').add(8,'minutes')`: upper window bound as logged,
before the in-place `endOf('day')` mutation. -/
def endWindow (now : Int) : Int := now + 128 * msPerMin

/-- `startWindow.startOf('day')` mutates `startWindow` in place; this is its
value from the query onwards. -/
def startWindowMutated (now : Int) : Int := startOfDay (startWindow now)

/-- `endWindow.endOf('day')` mutates `endWindow` in place; this is its value
from the query onwards. -/
def endWindowMutated (now : Int) : Int := endOfDay (endWindow now)

/-- `moment(session.date).hours(h).minutes(m).seconds(0)`: sets hours,
minutes, seconds on the session's stored date; the stored date's
milliseconds-within-second component survives. -/
def schedDateTime (s : Session) : Int :=
  startOfDay s.date + ((s.time.hh * 60 + s.time.mm : Nat) : Int) * msPerMin +
    (s.date.emod msPerDay).emod 1000

/-- The per-session test performed by one run of `sendSessionReminders` at
instant `now`: the Mongo query filter
`date >= startWindow.startOf('day'), date <= endWindow.endOf('day'),
isActive: true` followed by
`sessionDateTime.isBetween(startWindow, endWindow)` — `isBetween` with
default bounds is strict, and both window moments have already been mutated
to whole-day bounds by `startOf`/`endOf`. -/
def sessionFires (now : Int) (s : Session) : Bool :=
  decide (startWindowMutated now ≤ s.date) &&
  decide (s.date ≤ endWindowMutated now) &&
  s.isActive &&
  decide (startWindowMutated now < schedDateTime s) &&
  decide (schedDateTime s < endWindowMutated now)

/-- One run of `sendSessionReminders` at instant `now`: the booking ids that
receive a reminder email.  The function writes nothing back to the store
(the `reminderSent` update is commented out in the source), so the store
after a run is the store before it. -/
def sendSessionReminders (st : St) (now : Int) : List Nat :=
  (st.sessions.filter (sessionFires now)).flatMap
    (fun s => (confirmedBookings st s.sid).map (fun b => b.bid))

/-- The cancellation deadline stored on the booking with id `bid`. -/
def bookingDeadline (st : St) (bid : Nat) : Option Int :=
  (findBooking st bid).map (fun b => b.cancellationDeadline)

/-! ### Concrete fixtures -/

/-- An active session: epoch day 0, 10:00, capacity 4, 90-day package. -/
def sA : Session := ⟨0, 0, ⟨10, 0⟩, 4, true, 90⟩

/-- A pre-existing confirmed booking of group size 3 on `sA` by client 1. -/
def bPre : Booking :=
  ⟨5, 0, 1, 3, BStatus.confirmed, "", false, true, -50400000, false⟩

/-- An admin user. -/
def uAdmin : User := ⟨0, Role.admin, 0, none⟩

/-- A client user. -/
def uClient : User := ⟨1, Role.client, 0, none⟩

/-- Store with session `sA` at 3 of 4 seats occupied. -/
def stC1 : St := ⟨[sA], [bPre], [uAdmin, uClient], 10⟩

/-- The booking produced by a group-size-1 request of `uClient` on `stC1`. -/
def bC2W : Booking :=
  ⟨10, 0, 1, 1, BStatus.confirmed, "", false, false, -50400000, false⟩

/-- The store produced by that same request. -/
def stC2W : St := ⟨[sA], [bPre, bC2W], [uAdmin, uClient], 11⟩

/-- The package booking produced by a package request of `uClient` on `stC1`
at instant 0. -/
def bPkg : Booking :=
  ⟨10, 0, 1, 1, BStatus.confirmed, "", false, false, -50400000, true⟩

/-- `uClient` after that package booking: counter 1, expiry 90 days from 0. -/
def uClientPkg : User := ⟨1, Role.client, 1, some 7776000000⟩

/-- The store after that package booking. -/
def stPkg : St := ⟨[sA], [bPre, bPkg], [uAdmin, uClientPkg], 11⟩

/-- `uClient` after cancelling the package booking: counter back to 0, the
expiry overwrite remains. -/
def uClientPkgBack : User := ⟨1, Role.client, 0, some 7776000000⟩

/-- The store after cancelling the package booking. -/
def stPkgBack : St := ⟨[sA], [bPre], [uAdmin, uClientPkgBack], 11⟩

/-- An inactive (soft-deleted) session at epoch day 0, 10:00. -/
def sInact : Session := ⟨2, 0, ⟨10, 0⟩, 4, false, 90⟩

/-- Store whose only session at date 0, 10:00 is the inactive `sInact`. -/
def stC7 : St := ⟨[sInact], [], [uAdmin, uClient], 3⟩

/-- An active session on epoch day 0 starting at 22:00. -/
def s4 : Session := ⟨0, 0, ⟨22, 0⟩, 4, true, 90⟩

/-- A confirmed booking on `s4`. -/
def b4 : Booking := ⟨7, 0, 1, 1, BStatus.confirmed, "", false, true, -7200000, false⟩

/-- Store for the reminder-window counterexample. -/
def st4 : St := ⟨[s4], [b4], [uAdmin, uClient], 8⟩

/-- An active session on epoch day 0 starting at 02:00. -/
def s5 : Session := ⟨3, 0, ⟨2, 0⟩, 4, true, 90⟩

/-- A confirmed booking on `s5`. -/
def b5 : Booking := ⟨9, 3, 1, 1, BStatus.confirmed, "", false, true, -79200000, false⟩

/-- Store for the reminder-idempotence counterexample. -/
def st5 : St := ⟨[s5], [b5], [uAdmin, uClient], 12⟩

/-! ### Claims -/

/-- C1: for a client actor and a session that exists in the store (with the
schema bound `maxCapacity ≤ 4` and a positive requested group size), the
create-booking operation succeeds iff the session is active and the sum of
the existing confirmed group sizes plus the requested group size is at most
`maxCapacity`; otherwise it fails with the inactive-session or capacity
error, and the store is unchanged. -/
theorem createBooking_success_iff (st : St) (actor : User) (now : Int)
    (sid g : Nat) (pk emailOk : Bool) (s : Session)
    (hrole : actor.role = Role.client)
    (hfind : findSession st sid = some s)
    (hcap : s.maxCapacity ≤ 4) (hg : 1 ≤ g) :
    (succeededBk (createBooking st actor now sid g pk emailOk) = true ↔
      (s.isActive = true ∧ occupied st sid + g ≤ s.maxCapacity))
    ∧ (succeededBk (createBooking st actor now sid g pk emailOk) = false →
        createBooking st actor now sid g pk emailOk = .error .sessionNotAvailable ∨
        createBooking st actor now sid g pk emailOk = .error .notEnoughSpots)
    ∧ (succeededBk (createBooking st actor now sid g pk emailOk) = false →
        createBookingState st actor now sid g pk emailOk = st) := by
  have hra : ¬ actor.role = Role.admin := by rw [hrole]; intro h; cases h
  by_cases hact : s.isActive = true
  · by_cases hover : s.maxCapacity < occupied st sid + g
    · have hkey : createBooking st actor now sid g pk emailOk = .error .notEnoughSpots := by
        unfold createBooking
        rw [if_neg hra, hfind]
        simp only [hact, if_true, if_pos hover]
      refine ⟨?_, ?_, ?_⟩
      · rw [hkey]; constructor
        · intro h; cases h
        · intro ⟨_, hle⟩; omega
      · intro _; right; exact hkey
      · intro _; unfold createBookingState; rw [hkey]
    · have hval : ¬ (g < 1 ∨ 4 < g) := by omega
      have hkey : succeededBk (createBooking st actor now sid g pk emailOk) = true := by
        unfold createBooking
        rw [if_neg hra, hfind]
        simp only [hact, if_true, if_neg hover, if_neg hval]
        rfl
      refine ⟨?_, ?_, ?_⟩
      · rw [hkey]; simp only [true_iff]; exact ⟨hact, by omega⟩
      · intro h; rw [hkey] at h; cases h
      · intro h; rw [hkey] at h; cases h
  · have hkey : createBooking st actor now sid g pk emailOk = .error .sessionNotAvailable := by
      unfold createBooking
      rw [if_neg hra, hfind]
      simp only [Bool.not_eq_true] at hact
      simp [hact]
    refine ⟨?_, ?_, ?_⟩
    · rw [hkey]; constructor
      · intro h; cases h
      · intro ⟨ha, _⟩; exact absurd ha hact
    · intro _; left; exact hkey
    · intro _; unfold createBookingState; rw [hkey]

/-- C1 witness: in `stC1` (capacity 4, occupied 3) a client request of group
size 1 is governed by the proved equivalence, whose hypotheses hold there. -/
theorem createBooking_success_iff_witness :
    (findSession stC1 0 = some sA ∧ sA.maxCapacity ≤ 4 ∧ 1 ≤ 1)
    ∧ ((succeededBk (createBooking stC1 uClient 0 0 1 false true) = true ↔
        (sA.isActive = true ∧ occupied stC1 0 + 1 ≤ sA.maxCapacity))
      ∧ (succeededBk (createBooking stC1 uClient 0 0 1 false true) = false →
          createBooking stC1 uClient 0 0 1 false true = .error .sessionNotAvailable ∨
          createBooking stC1 uClient 0 0 1 false true = .error .notEnoughSpots)
      ∧ (succeededBk (createBooking stC1 uClient 0 0 1 false true) = false →
          createBookingState stC1 uClient 0 0 1 false true = stC1)) :=
  ⟨⟨rfl, by decide, by decide⟩,
    createBooking_success_iff stC1 uClient 0 0 1 false true sA rfl rfl
      (by decide) (by decide)⟩

/-- C10: a booking-creation request by an admin actor fails with the
authorization error and leaves the store unchanged, whatever the session,
group size, capacity or package flags. -/
theorem createBooking_admin_rejected (st : St) (actor : User) (now : Int)
    (sid g : Nat) (pk emailOk : Bool)
    (hrole : actor.role = Role.admin) :
    createBooking st actor now sid g pk emailOk = .error .adminsCannotBook
    ∧ createBookingState st actor now sid g pk emailOk = st := by
  have h : createBooking st actor now sid g pk emailOk = .error .adminsCannotBook := by
    unfold createBooking; rw [if_pos hrole]
  exact ⟨h, by unfold createBookingState; rw [h]⟩

/-- C10 witness: the admin of `stC1` is rejected on a request that a client
with the same parameters could make. -/
theorem createBooking_admin_rejected_witness :
    uAdmin.role = Role.admin
    ∧ (createBooking stC1 uAdmin 0 0 1 false true = .error .adminsCannotBook
      ∧ createBookingState stC1 uAdmin 0 0 1 false true = stC1) :=
  ⟨rfl, createBooking_admin_rejected stC1 uAdmin 0 0 1 false true rfl⟩

/-- `find?` skips a prefix on which the predicate fails everywhere. -/
theorem find?_append_of_none {α : Type} (p : α → Bool) (l₁ l₂ : List α)
    (h : l₁.find? p = none) : (l₁ ++ l₂).find? p = l₂.find? p := by
  induction l₁ with
  | nil => rfl
  | cons a l ih =>
    cases hpa : p a with
    | true => rw [List.find?_cons_of_pos _ hpa] at h; cases h
    | false =>
      rw [List.find?_cons_of_neg _ (by simp [hpa])] at h
      rw [List.cons_append, List.find?_cons_of_neg _ (by simp [hpa])]
      exact ih h

/-- The notes update of `app.put('/api/booking/:id/notes')` changes no
booking's stored cancellation deadline. -/
theorem find?_notesMap_deadline (l : List Booking) (bid : Nat) (notes : String) :
    ((l.map (fun b => if b.bid = bid then { b with notes := notes } else b)).find?
        (fun b => decide (b.bid = bid))).map (fun b => b.cancellationDeadline)
    = (l.find? (fun b => decide (b.bid = bid))).map (fun b => b.cancellationDeadline) := by
  induction l with
  | nil => rfl
  | cons a l ih =>
    by_cases h : a.bid = bid
    · rw [List.map_cons, if_pos h]
      rw [List.find?_cons_of_pos _ (by simp [h]), List.find?_cons_of_pos _ (by simp [h])]
      rfl
    · rw [List.map_cons, if_neg h]
      rw [List.find?_cons_of_neg _ (by simp [h]), List.find?_cons_of_neg _ (by simp [h])]
      exact ih

/-- C2: a booking created through the create-booking handler stores the
cancellation deadline computed by the `pre('save')` middleware — the
session's date combined with its "HH:MM" time, minus exactly 24 hours — and
that stored value is what every later read returns: it survives the notes
update (the only booking mutator) and any replacement of the sessions
collection, i.e. it is never recomputed from the session. -/
theorem cancellationDeadline_fixed (st : St) (actor : User) (now : Int)
    (sid g : Nat) (pk emailOk : Bool) (s : Session) (st2 : St) (b : Booking)
    (eo : Bool) (notes : String) (ss : List Session)
    (hfind : findSession st sid = some s)
    (hok : createBooking st actor now sid g pk emailOk = .ok (st2, b, eo))
    (hwf : ∀ x ∈ st.bookings, x.bid < st.nextId) :
    b.cancellationDeadline = sessionStart s - 24 * msPerHour
    ∧ bookingDeadline st2 b.bid = some (sessionStart s - 24 * msPerHour)
    ∧ bookingDeadline { updateBookingNotes st2 b.bid notes with sessions := ss } b.bid
        = bookingDeadline st2 b.bid := by
  unfold createBooking at hok
  by_cases hra : actor.role = Role.admin
  · rw [if_pos hra] at hok; cases hok
  · rw [if_neg hra, hfind] at hok
    by_cases hact : s.isActive = true
    · simp only [hact, if_true] at hok
      by_cases hover : s.maxCapacity < occupied st sid + g
      · rw [if_pos hover] at hok; cases hok
      · rw [if_neg hover] at hok
        by_cases hval : g < 1 ∨ 4 < g
        · rw [if_pos hval] at hok; cases hok
        · rw [if_neg hval] at hok
          simp only [Except.ok.injEq, Prod.mk.injEq] at hok
          obtain ⟨hst2, hb, _⟩ := hok
          have hbooks : st2.bookings =
              st.bookings ++ [b] := by
            rw [← hst2, ← hb]
            cases pk <;> simp [applyPackageBooking]
          have hbid : b.bid = st.nextId := by rw [← hb]
          have hdl : b.cancellationDeadline = computeDeadline s := by rw [← hb]
          have hnone : st.bookings.find? (fun x => decide (x.bid = b.bid)) = none := by
            rw [List.find?_eq_none]
            intro x hx
            simp only [decide_eq_true_eq]
            have := hwf x hx
            omega
          have hfb : findBooking st2 b.bid = some b := by
            unfold findBooking
            rw [hbooks, find?_append_of_none _ _ _ hnone]
            rw [List.find?_cons_of_pos _ (by simp)]
          refine ⟨?_, ?_, ?_⟩
          · rw [hdl]; rfl
          · unfold bookingDeadline
            rw [hfb, Option.map_some', hdl]
            rfl
          · unfold bookingDeadline findBooking updateBookingNotes
            exact find?_notesMap_deadline st2.bookings b.bid notes
    · simp only [Bool.not_eq_true] at hact
      simp [hact] at hok

/-- C2 witness: the concrete outcome of a successful booking on `stC1`. -/
theorem cancellationDeadline_fixed_witness :
    bC2W.cancellationDeadline = sessionStart sA - 24 * msPerHour
    ∧ bookingDeadline stC2W bC2W.bid = some (sessionStart sA - 24 * msPerHour)
    ∧ bookingDeadline { updateBookingNotes stC2W bC2W.bid "late" with sessions := [] }
        bC2W.bid = bookingDeadline stC2W bC2W.bid :=
  cancellationDeadline_fixed stC1 uClient 0 0 1 false true sA stC2W bC2W true
    "late" [] rfl rfl (by decide)

/-- C3 counterexample: a non-admin cancelling exactly at the deadline
succeeds, although the current time is not strictly before the deadline —
the handler rejects only when `now > cancellationDeadline`. -/
theorem cancel_at_deadline_succeeds :
    succeededCancel (cancelBooking stC1 uClient (-50400000) 5 true) = true
    ∧ uClient.role ≠ Role.admin
    ∧ ¬ ((-50400000 : Int) < bPre.cancellationDeadline) := by decide

/-- C3 (amended): on an existing booking, an admin actor always cancels
successfully; a non-admin actor owning the booking succeeds iff the current
time is at or before the booking's cancellation deadline (`now ≤ deadline`),
and strictly after the deadline the request fails with the
cancellation-window-closed error. -/
theorem cancel_policy (st : St) (actor : User) (now : Int) (bid : Nat)
    (emailOk : Bool) (b : Booking)
    (hb : findBooking st bid = some b) :
    (actor.role = Role.admin →
      succeededCancel (cancelBooking st actor now bid emailOk) = true)
    ∧ (actor.role = Role.client → b.client = actor.uid →
      (succeededCancel (cancelBooking st actor now bid emailOk) = true ↔
        now ≤ b.cancellationDeadline))
    ∧ (actor.role = Role.client → b.client = actor.uid →
      b.cancellationDeadline < now →
      cancelBooking st actor now bid emailOk = .error .windowClosed) := by
  refine ⟨?_, ?_, ?_⟩
  · intro hadm
    simp only [cancelBooking, hb]
    rw [if_neg (by simp [hadm]), if_neg (by simp [hadm])]
    rfl
  · intro hcl hown
    simp only [cancelBooking, hb]
    rw [if_neg (by simp [hown])]
    by_cases hnow : b.cancellationDeadline < now
    · rw [if_pos ⟨(by rw [hcl]; intro h; cases h), hnow⟩]
      constructor
      · intro h; cases h
      · intro h; omega
    · rw [if_neg (by intro ⟨_, h2⟩; exact hnow h2)]
      constructor
      · intro _; omega
      · intro _; rfl
  · intro hcl hown hlate
    simp only [cancelBooking, hb]
    rw [if_neg (by simp [hown]), if_pos ⟨(by rw [hcl]; intro h; cases h), hlate⟩]

/-- C3 witness: at one second past the deadline, the client owning `bPre`
is rejected with the window-closed error. -/
theorem cancel_policy_witness :
    (uClient.role = Role.admin →
      succeededCancel (cancelBooking stC1 uClient (-50399000) 5 true) = true)
    ∧ (uClient.role = Role.client → bPre.client = uClient.uid →
      (succeededCancel (cancelBooking stC1 uClient (-50399000) 5 true) = true ↔
        (-50399000 : Int) ≤ bPre.cancellationDeadline))
    ∧ (uClient.role = Role.client → bPre.client = uClient.uid →
      bPre.cancellationDeadline < (-50399000 : Int) →
      cancelBooking stC1 uClient (-50399000) 5 true = .error .windowClosed) :=
  cancel_policy stC1 uClient (-50399000) 5 true bPre rfl

/-- `find?` by user id commutes with a map that preserves user ids. -/
theorem find?_map_uid (l : List User) (uid : Nat) (f : User → User)
    (hf : ∀ u, (f u).uid = u.uid) :
    (l.map f).find? (fun u => decide (u.uid = uid)) =
      (l.find? (fun u => decide (u.uid = uid))).map f := by
  induction l with
  | nil => rfl
  | cons a l ih =>
    by_cases h : a.uid = uid
    · rw [List.map_cons, List.find?_cons_of_pos _ (by simp [hf, h]),
        List.find?_cons_of_pos _ (by simp [h])]
      rfl
    · rw [List.map_cons, List.find?_cons_of_neg _ (by simp [hf, h]),
        List.find?_cons_of_neg _ (by simp [h])]
      rw [ih]

/-- C6: a package-mode booking increments the client's `activeSessions` by
exactly 1 and overwrites `packageExpiry` with `now` plus the session's
`packageDuration` in days; cancelling that same booking decrements
`activeSessions` by exactly 1 (an unconditional `$inc: -1`), restoring the
pre-booking count. -/
theorem package_counter_roundtrip (st : St) (actor : User) (now now2 : Int)
    (sid g : Nat) (emailOk eo1 eo2 eo2x : Bool) (s : Session) (st1 : St)
    (b : Booking) (u : User) (st2 : St)
    (hu : findUser st actor.uid = some u)
    (hfs : findSession st sid = some s)
    (hwf : ∀ x ∈ st.bookings, x.bid < st.nextId)
    (hok : createBooking st actor now sid g true emailOk = .ok (st1, b, eo1))
    (hcancel : cancelBooking st1 actor now2 b.bid eo2 = .ok (st2, eo2x)) :
    findUser st1 actor.uid = some
      { u with activeSessions := u.activeSessions + 1,
               packageExpiry := some (now + (s.packageDuration : Int) * msPerDay) }
    ∧ (findUser st2 actor.uid).map (fun v => v.activeSessions) =
        some u.activeSessions := by
  have huid : u.uid = actor.uid := by
    have := List.find?_some hu
    simpa using this
  unfold createBooking at hok
  by_cases hra : actor.role = Role.admin
  · rw [if_pos hra] at hok; cases hok
  · rw [if_neg hra, hfs] at hok
    by_cases hact : s.isActive = true
    · simp only [hact, if_true] at hok
      by_cases hover : s.maxCapacity < occupied st sid + g
      · rw [if_pos hover] at hok; cases hok
      · rw [if_neg hover] at hok
        by_cases hval : g < 1 ∨ 4 < g
        · rw [if_pos hval] at hok; cases hok
        · rw [if_neg hval] at hok
          simp only [if_true, Except.ok.injEq, Prod.mk.injEq] at hok
          obtain ⟨hst1, hb, _⟩ := hok
          have hfu1 : findUser st1 actor.uid = some
              { u with activeSessions := u.activeSessions + 1,
                       packageExpiry := some (now + (s.packageDuration : Int) * msPerDay) } := by
            rw [← hst1]
            unfold findUser applyPackageBooking
            rw [find?_map_uid _ _ _
              (by intro v; by_cases hv : v.uid = actor.uid <;> simp [hv])]
            unfold findUser at hu
            rw [hu, Option.map_some', if_pos huid]
          refine ⟨hfu1, ?_⟩
          -- now destructure the cancellation
          have hbclient : b.client = actor.uid := by rw [← hb]
          have hbpkg : b.isPackageBooking = true := by rw [← hb]
          have hbooks1 : st1.bookings = st.bookings ++ [b] := by
            rw [← hst1, ← hb]
          have hnone : st.bookings.find? (fun x => decide (x.bid = b.bid)) = none := by
            rw [List.find?_eq_none]
            intro x hx
            simp only [decide_eq_true_eq]
            have hlt := hwf x hx
            have hbid : b.bid = st.nextId := by rw [← hb]
            omega
          have hfb : findBooking st1 b.bid = some b := by
            unfold findBooking
            rw [hbooks1, find?_append_of_none _ _ _ hnone]
            rw [List.find?_cons_of_pos _ (by simp)]
          simp only [cancelBooking, hfb] at hcancel
          rw [if_neg (by simp [hbclient])] at hcancel
          by_cases hlate : actor.role ≠ Role.admin ∧ b.cancellationDeadline < now2
          · rw [if_pos hlate] at hcancel; cases hcancel
          · rw [if_neg hlate] at hcancel
            simp only [hbpkg, if_true, Except.ok.injEq, Prod.mk.injEq] at hcancel
            obtain ⟨hst2, _⟩ := hcancel
            rw [← hst2]
            show ((applyPackageCancellation st1.users b.client).find?
              (fun u => decide (u.uid = actor.uid))).map (fun v => v.activeSessions) = _
            unfold applyPackageCancellation
            rw [hbclient]
            rw [find?_map_uid _ _ _
              (by intro v; by_cases hv : v.uid = actor.uid <;> simp [hv])]
            unfold findUser at hfu1
            rw [hfu1, Option.map_some', Option.map_some', if_pos huid]
            simp
    · simp only [Bool.not_eq_true] at hact
      simp [hact] at hok

/-- C6 witness: the concrete package booking and cancellation on `stC1`. -/
theorem package_counter_roundtrip_witness :
    findUser stPkg uClient.uid = some
      { uClient with activeSessions := uClient.activeSessions + 1,
                     packageExpiry := some (0 + (sA.packageDuration : Int) * msPerDay) }
    ∧ (findUser stPkgBack uClient.uid).map (fun v => v.activeSessions) =
        some uClient.activeSessions :=
  package_counter_roundtrip stC1 uClient 0 (-86400000) 0 1 true true true true
    sA stPkg bPkg uClient stPkgBack rfl rfl (by decide) (by rfl) (by rfl)

/-- C7 counterexample: a create-session request whose date and time collide
only with an inactive (soft-deleted) session is still rejected as a
duplicate — `Session.findOne({ date, time })` carries no `isActive` filter. -/
theorem createSession_inactive_collision_rejected :
    stC7.sessions.all (fun s => !s.isActive) = true
    ∧ createSession stC7 uAdmin 0 ⟨10, 0⟩ 4 90 = .error .duplicateSession :=
  ⟨by decide, by rfl⟩

/-- C7 (amended): for an admin actor and a request within the Session
schema's capacity bound [1,4], session creation fails with the
duplicate-session error iff any session — active or inactive — already exists
at the exact same date and time, and succeeds iff none does. -/
theorem createSession_duplicate_iff (st : St) (actor : User) (d : Int)
    (t : HM) (cap dur : Nat)
    (hrole : actor.role = Role.admin)
    (hc1 : 1 ≤ cap) (hc2 : cap ≤ 4) :
    (createSession st actor d t cap dur = .error .duplicateSession ↔
      st.sessions.any (fun s => decide (s.date = d ∧ s.time = t)) = true)
    ∧ (succeededSess (createSession st actor d t cap dur) = true ↔
      st.sessions.any (fun s => decide (s.date = d ∧ s.time = t)) = false) := by
  have hadm : ¬ actor.role ≠ Role.admin := by simp [hrole]
  have hkey : (st.sessions.find? (fun s => decide (s.date = d ∧ s.time = t))).isSome =
      st.sessions.any (fun s => decide (s.date = d ∧ s.time = t)) := by
    rw [Bool.eq_iff_iff, List.find?_isSome, List.any_eq_true]
  cases hdup : st.sessions.any (fun s => decide (s.date = d ∧ s.time = t)) with
  | true =>
    have hsome : (st.sessions.find? (fun s => decide (s.date = d ∧ s.time = t))).isSome = true := by
      rw [hkey, hdup]
    have hres : createSession st actor d t cap dur = .error .duplicateSession := by
      unfold createSession
      rw [if_neg hadm, if_pos hsome]
    constructor
    · rw [hres]
      exact iff_of_true rfl rfl
    · rw [hres]
      exact iff_of_false (by decide) (by decide)
  | false =>
    have hnone : ¬ (st.sessions.find? (fun s => decide (s.date = d ∧ s.time = t))).isSome = true := by
      rw [hkey, hdup]; decide
    constructor
    · constructor
      · intro h
        unfold createSession at h
        rw [if_neg hadm, if_neg hnone, if_neg (by omega)] at h
        cases h
      · intro h; cases h
    · constructor
      · intro _; rfl
      · intro _
        unfold createSession succeededSess
        rw [if_neg hadm, if_neg hnone, if_neg (by omega)]

/-- C7 witness: in `stC1` an active session already sits at date 0, 10:00,
so the equivalence reports the duplicate rejection there. -/
theorem createSession_duplicate_iff_witness :
    uAdmin.role = Role.admin ∧ 1 ≤ 4 ∧ 4 ≤ 4
    ∧ ((createSession stC1 uAdmin 0 ⟨10, 0⟩ 4 90 = .error .duplicateSession ↔
        stC1.sessions.any (fun s => decide (s.date = 0 ∧ s.time = ⟨10, 0⟩)) = true)
      ∧ (succeededSess (createSession stC1 uAdmin 0 ⟨10, 0⟩ 4 90) = true ↔
        stC1.sessions.any (fun s => decide (s.date = 0 ∧ s.time = ⟨10, 0⟩)) = false)) :=
  ⟨rfl, by decide, by decide,
    createSession_duplicate_iff stC1 uAdmin 0 ⟨10, 0⟩ 4 90 rfl (by decide) (by decide)⟩

/-- C8: deleting a session attempts exactly one cancellation notification per
confirmed booking of that session (each attempt's outcome recorded from the
notification oracle), afterwards no booking referencing the session remains
and the session itself is gone. -/
theorem deleteSession_cascade (st : St) (sid : Nat) (emailOk : Nat → Bool) :
    (deleteSession st sid emailOk).1.length = (confirmedBookings st sid).length
    ∧ (deleteSession st sid emailOk).1.map Prod.fst =
        (confirmedBookings st sid).map (fun b => b.bid)
    ∧ (deleteSession st sid emailOk).2.bookings.filter
        (fun b => decide (b.session = sid)) = []
    ∧ findSession (deleteSession st sid emailOk).2 sid = none := by
  refine ⟨?_, ?_, ?_, ?_⟩
  · unfold deleteSession
    rw [List.length_map]
  · unfold deleteSession
    rw [List.map_map]
    rfl
  · unfold deleteSession
    rw [List.filter_filter]
    rw [List.filter_eq_nil_iff]
    intro b _
    simp
  · unfold deleteSession findSession
    rw [List.find?_eq_none]
    intro s hs
    rw [List.mem_filter] at hs
    simpa using hs.2

/-- C9: the outcome of the notification collaborator never changes the
result of booking creation or cancellation: the store, the created booking
and the success/error answer are identical for any two notification
outcomes, so a notification failure is neither propagated nor rolls back the
committed state. -/
theorem notification_isolated (st : St) (actor : User) (now : Int)
    (sid g bid : Nat) (pk e1 e2 e3 e4 : Bool) :
    (createBooking st actor now sid g pk e1).map (fun r => (r.1, r.2.1)) =
      (createBooking st actor now sid g pk e2).map (fun r => (r.1, r.2.1))
    ∧ succeededBk (createBooking st actor now sid g pk e1) =
        succeededBk (createBooking st actor now sid g pk e2)
    ∧ (cancelBooking st actor now bid e3).map (fun r => r.1) =
        (cancelBooking st actor now bid e4).map (fun r => r.1)
    ∧ succeededCancel (cancelBooking st actor now bid e3) =
        succeededCancel (cancelBooking st actor now bid e4) := by
  have h1 : (createBooking st actor now sid g pk e1).map (fun r => (r.1, r.2.1)) =
      (createBooking st actor now sid g pk e2).map (fun r => (r.1, r.2.1)) := by
    unfold createBooking
    repeat' split
    all_goals rfl
  have h2 : (cancelBooking st actor now bid e3).map (fun r => r.1) =
      (cancelBooking st actor now bid e4).map (fun r => r.1) := by
    unfold cancelBooking
    repeat' split
    all_goals rfl
  refine ⟨h1, ?_, h2, ?_⟩
  · cases hx : createBooking st actor now sid g pk e1 <;>
      cases hy : createBooking st actor now sid g pk e2 <;>
      rw [hx, hy] at h1 <;> simp [Except.map] at h1 <;> rfl
  · cases hx : cancelBooking st actor now bid e3 <;>
      cases hy : cancelBooking st actor now bid e4 <;>
      rw [hx, hy] at h2 <;> simp [Except.map] at h2 <;> rfl

/-- C4: the reminder scan does not implement the claimed 15-minute window.
`startOf('day')`/`endOf('day')` mutate the window moments in place, so the
`isBetween` check at dispatch time compares the session's start against
whole-day bounds: at midnight (`now = 0`) the scan dispatches a reminder for
a session starting at 22:00 the same day — 22 hours early — although `now`
is far outside the claimed range `[T-2h07m, T-1h52m]`. -/
theorem reminder_fires_outside_claimed_window :
    sessionFires 0 s4 = true
    ∧ sendSessionReminders st4 0 = [7]
    ∧ ¬ (schedDateTime s4 - 127 * msPerMin ≤ 0 ∧
        (0 : Int) ≤ schedDateTime s4 - 112 * msPerMin) := by
  decide

/-- C5: the scan is not idempotent.  `reminderSent` is never read or written
(the marker update is commented out), and the scan performs no store write at
all, so two runs at instants that both lie inside the session's claimed
reminder range `[T-2h07m, T-1h52m]` each dispatch a reminder to the same
confirmed booking: two reminders in total, not at most one. -/
theorem reminder_scan_not_idempotent :
    (schedDateTime s5 - 127 * msPerMin ≤ 0 ∧
      (0 : Int) ≤ schedDateTime s5 - 112 * msPerMin)
    ∧ (schedDateTime s5 - 127 * msPerMin ≤ 60000 ∧
      (60000 : Int) ≤ schedDateTime s5 - 112 * msPerMin)
    ∧ (sendSessionReminders st5 0).count 9 +
        (sendSessionReminders st5 60000).count 9 = 2 := by
  decide

end PTB
